import Mathlib

/-!
Shallow embedding of the VibeOn backend (Mind Journal API): `src/main.py` and
`src/schemas.py`.  The service composes two external collaborators — a
generative-AI provider (`ai_client.models.generate_content`) and a managed
store (the supabase `entries` table) — behind three HTTP routes.  The outcomes
of the two external calls are passed as explicit parameters to the embedded
route functions, and the entries table is passed as explicit state.
-/

namespace VibeOn

/-- A JSON-style primitive value as it appears in table rows and HTTP
response objects (strings, numbers, timestamps). -/
inductive Value where
  | str : String → Value
  | num : ℚ → Value
  | tstamp : Nat → Value
deriving DecidableEq, Repr

/-- The parsed object of the response schema requested at
`src/main.py` lines 49-57: an object with required fields
`mood` (string), `score` (number), `tip` (string). -/
structure AIParsed where
  mood : String
  score : ℚ
  tip : String
deriving DecidableEq, Repr

/-- Outcome of the external `ai_client.models.generate_content` call
(`src/main.py` lines 60-67).  The call either returns a response object —
whose `parsed` field is the schema-conformant object, or `None` when the
reply of the provider could not be parsed against the schema (the
google-genai client populates `parsed` as `None` in that case, it does not
raise) — or it
raises an exception (network failure, quota exhaustion, provider error). -/
inductive GenOutcome where
  | ok : Option AIParsed → GenOutcome
  | raise : String → GenOutcome
deriving DecidableEq, Repr

/-- The fixed fallback dict of `src/main.py` line 72: mood "Neutral",
score 0.5, and the fixed supportive tip. -/
def fallback : AIParsed :=
  ⟨"Neutral", 1 / 2, "I\x27m listening. Tell me more about your day."⟩

/-- What a call to `analyze_with_ai` produces: the returned Python value
(`response.parsed`, which may be `None`, or the fallback dict) together with
whether a log record was emitted (`logger.error`, line 70). -/
structure AIResult where
  value : Option AIParsed
  logged : Bool
deriving DecidableEq, Repr

/-- Embedding of `analyze_with_ai` (`src/main.py` lines 42-72).  The prompt and schema
construction (lines 46-57) cannot raise; the external call is the sole
statement inside the `try`, and `except Exception` catches every failure,
logs it and returns the fallback dict.  On a non-raising call the function
returns `response.parsed` unchanged. -/
def analyze_with_ai (text : String) (gen : GenOutcome) : AIResult :=
  match text, gen with
  | _, .ok parsed => ⟨parsed, false⟩
  | _, .raise _ => ⟨some fallback, true⟩

/-- Schema `JournalEntryRequest` (`src/schemas.py` lines 7-14): the validated
request body. -/
structure JournalEntryRequest where
  content : String
deriving DecidableEq, Repr

/-- Schema `JournalEntryResponse` (`src/schemas.py` lines 18-27): the outward-facing
entry representation (`created_at` modelled as an abstract timestamp,
`sentiment_score` as a rational number). -/
structure JournalEntryResponse where
  id : String
  created_at : Nat
  content : String
  mood_label : String
  sentiment_score : ℚ
  supportive_tip : String
deriving DecidableEq, Repr

/-- The JSON value found at the `content` member of a request body:
either a string or some non-string JSON value. -/
inductive ContentVal where
  | str : String → ContentVal
  | nonStr : ContentVal
deriving DecidableEq, Repr

/-- A request body for `POST /add-entry`: it either has a `content` member
or lacks it. -/
inductive Body where
  | withContent : ContentVal → Body
  | missing : Body
deriving DecidableEq, Repr

/-- Pydantic validation of the body against `JournalEntryRequest`
(`src/schemas.py` lines 9-14): `content` is required, must be a string, and
`Field(min_length=1, max_length=10000)` bounds its length.  `none` means the
framework rejects the request with a 422 before the handler body runs. -/
def validateRequest : Body → Option JournalEntryRequest
  | .missing => none
  | .withContent .nonStr => none
  | .withContent (.str c) =>
      if 1 ≤ c.length ∧ c.length ≤ 10000 then some ⟨c⟩ else none

/-- A row of the `entries` table: the four columns written by `add_entry`,
the store-assigned `id` and `created_at`, and any further columns the table
may carry (returned by the select-all and by the returning representation of
the insert, but never written by this system). -/
structure StoredRow where
  id : String
  created_at : Nat
  content : String
  mood_label : String
  sentiment_score : ℚ
  supportive_tip : String
  extra : List (String × Value)
deriving DecidableEq, Repr

/-- The entries table. -/
abbrev Store := List StoredRow

/-- The dict passed to `insert` at `src/main.py` lines 86-91. -/
structure InsertPayload where
  content : String
  mood : String
  score : ℚ
  tip : String
deriving DecidableEq, Repr

/-- Contractual behaviour of the insert-and-execute call on the entries
table (`src/main.py` lines 86-91):
either the call raises (an `APIError`) and nothing is persisted, or the row is
persisted with a server-assigned `id` and `created_at` (and default values for
any extra columns) and returned in `response.data`. -/
inductive DBBehavior where
  | assign : String → Nat → List (String × Value) → DBBehavior
  | fail : String → DBBehavior
deriving DecidableEq, Repr

/-- The row the store persists and echoes back for a given payload. -/
def mkRow (id : String) (ts : Nat) (extra : List (String × Value))
    (p : InsertPayload) : StoredRow :=
  ⟨id, ts, p.content, p.mood, p.score, p.tip, extra⟩

/-- Run the insert against the table: the new table state together with the
result of `execute()` (the list `response.data`, or a raised error). -/
def runInsert (s : Store) (p : InsertPayload) :
    DBBehavior → Store × Except String (List StoredRow)
  | .assign id ts extra => (s ++ [mkRow id ts extra p], .ok [mkRow id ts extra p])
  | .fail msg => (s, .error msg)

/-- Shaping of a returned row through `response_model=JournalEntryResponse`
(`src/main.py` line 76): FastAPI validates the row against the model and
emits only the fields of the model, dropping any extra columns. -/
def toResponse (r : StoredRow) : JournalEntryResponse :=
  ⟨r.id, r.created_at, r.content, r.mood_label, r.sentiment_score, r.supportive_tip⟩

/-- The field names of `JournalEntryResponse`, in declaration order. -/
def responseFields : List String :=
  ["id", "created_at", "content", "mood_label", "sentiment_score", "supportive_tip"]

/-- JSON serialization of a shaped `JournalEntryResponse`: exactly the six
model fields. -/
def serializeEntry (e : JournalEntryResponse) : List (String × Value) :=
  [("id", .str e.id), ("created_at", .tstamp e.created_at),
   ("content", .str e.content), ("mood_label", .str e.mood_label),
   ("sentiment_score", .num e.sentiment_score),
   ("supportive_tip", .str e.supportive_tip)]

/-- JSON serialization of a raw stored row as the store returns it from the
select-all query: every column, including the extra ones. -/
def serializeStoredRow (r : StoredRow) : List (String × Value) :=
  serializeEntry (toResponse r) ++ r.extra

/-- An HTTP response of the service: a shaped entry (200 from `add-entry`),
a raw row list (200 from `history`), a static payload (`GET /`), a 422 from
request validation, or an `HTTPException` with status and detail. -/
inductive Resp where
  | entry : JournalEntryResponse → Resp
  | rows : List (List (String × Value)) → Resp
  | static : List (String × String) → Resp
  | validationError : Resp
  | httpError : Nat → String → Resp
deriving DecidableEq, Repr

/-- The detail of the 500 raised at `src/main.py` line 98. -/
def dbErrorDetail : String := "Failed to save entry to database."

/-- The `try`/`except` block of `add_entry` (`src/main.py` lines 85-98),
as a function of the value `analyze_with_ai` returned and of the result of
`execute()`.  Every exception inside the block lands in the same handler:
building the insert dict raises a `TypeError` when `ai_data` is `None`
(before the insert call runs), `execute()` itself may raise, and
`response.data[0]` raises an `IndexError` when `data` is empty; each is
caught and replaced by the same `HTTPException(500, dbErrorDetail)`.
On success the first returned row is shaped by the response model. -/
def exceptBlockResp : Option AIParsed → Except String (List StoredRow) → Resp
  | none, _ => .httpError 500 dbErrorDetail
  | some _, .error _ => .httpError 500 dbErrorDetail
  | some _, .ok [] => .httpError 500 dbErrorDetail
  | some _, .ok (r :: _) => .entry (toResponse r)

/-- What one `POST /add-entry` request produced: the table state after the
request, the HTTP response, and how many times each external collaborator
was invoked. -/
structure RouteOut where
  store : Store
  resp : Resp
  aiCalls : Nat
  insertCalls : Nat
deriving DecidableEq, Repr

/-- The `POST /add-entry` route (`src/main.py` lines 76-98): framework
validation of the body, then `analyze_with_ai`, then the insert block.
When `ai_data` is `None` the dict construction raises before `execute()`
runs, so the store is untouched and the insert is never invoked. -/
def addEntryRoute (s : Store) (b : Body) (gen : GenOutcome) (db : DBBehavior) :
    RouteOut :=
  match validateRequest b with
  | none => ⟨s, .validationError, 0, 0⟩
  | some req =>
    match (analyze_with_ai req.content gen).value with
    | none => ⟨s, exceptBlockResp none (.ok []), 1, 0⟩
    | some d =>
      let out := runInsert s ⟨req.content, d.mood, d.score, d.tip⟩ db
      ⟨out.1, exceptBlockResp (some d) out.2, 1, 1⟩

/-- The comparison requested from the store by
`order("created_at", desc=True)` (`src/main.py` line 106). -/
def createdAtGe (x y : StoredRow) : Bool := y.created_at ≤ x.created_at

/-- The row sequence the store returns for
`select("*").order("created_at", desc=True)`: all rows, sorted by
`created_at` descending. -/
def orderByCreatedAtDesc (s : Store) : List StoredRow :=
  s.mergeSort createdAtGe

/-- The detail of the 500 raised at `src/main.py` line 110. -/
def fetchErrorDetail : String := "Failed to fetch history."

/-- The `GET /history` route (`src/main.py` lines 100-110): on a successful
fetch it returns `response.data` — the raw ordered rows, with no
`response_model` shaping; on a raised fetch error it returns
`HTTPException(500, fetchErrorDetail)`. -/
def getHistoryRoute (s : Store) (fetchFail : Option String) : Resp :=
  match fetchFail with
  | some _ => .httpError 500 fetchErrorDetail
  | none => .rows ((orderByCreatedAtDesc s).map serializeStoredRow)

/-- The `GET /` route (`src/main.py` lines 112-114): a constant payload,
no external call (the zero counters record that neither the AI client nor
the store client is invoked). -/
def readRootRoute : Resp × Nat × Nat :=
  (.static [("status", "Mind Journal API is Online")], 0, 0)

/-- A sample parsed AI analysis, used as a concrete instantiation. -/
def happyParsed : AIParsed := ⟨"Happy", 9 / 10, "Keep it up!"⟩

/-- C7: the operation `analyze_with_ai` is total — for every input text and
every outcome of the external call it returns a value to its caller instead
of raising: on a non-raising call it returns the parsed field unchanged with
no side effect, and on a raised exception its only side effect is the log
record, and the fallback is returned. -/
theorem analyze_with_ai_total (t : String) (g : GenOutcome) :
    ((analyze_with_ai t g).logged = true ↔ ∃ msg, g = GenOutcome.raise msg) ∧
    (∀ p, g = GenOutcome.ok p → analyze_with_ai t g = ⟨p, false⟩) ∧
    (∀ msg, g = GenOutcome.raise msg →
      analyze_with_ai t g = ⟨some fallback, true⟩) := by
  cases g with
  | ok p =>
    refine ⟨by simp [analyze_with_ai], ?_, ?_⟩
    · intro q hq
      cases hq
      rfl
    · intro msg hmsg
      cases hmsg
  | raise m =>
    refine ⟨?_, ?_, ?_⟩
    · simp [analyze_with_ai]
    · intro q hq
      cases hq
    · intro msg hmsg
      cases hmsg
      rfl

/-- Witness for C7 at a concrete raising outcome. -/
theorem analyze_with_ai_total_witness :
    analyze_with_ai ("hi") (GenOutcome.raise ("boom")) = ⟨some fallback, true⟩ :=
  (analyze_with_ai_total ("hi") (GenOutcome.raise ("boom"))).2.2 ("boom") rfl

/-- C8: the route `GET /` always returns exactly the static payload with
status "Mind Journal API is Online" and invokes neither the AI provider nor
the storage backend (both invocation counters are zero). -/
theorem read_root_static :
    readRootRoute = (Resp.static [("status", "Mind Journal API is Online")], 0, 0) :=
  rfl

/-- C1 fails as stated: a malformed/unparseable provider response that does
not raise leaves the parsed field `None`; `analyze_with_ai` then returns
`None` rather than the fixed fallback, and `add-entry` fails with the
generic 500 instead of succeeding with the fallback values. -/
theorem ai_fallback_counterexample :
    (analyze_with_ai ("t") (GenOutcome.ok none)).value ≠ some fallback ∧
    (addEntryRoute [] (Body.withContent (ContentVal.str ("t")))
        (GenOutcome.ok none) (DBBehavior.assign ("e1") 1 [])).resp =
      Resp.httpError 500 dbErrorDetail := by
  exact ⟨by simp [analyze_with_ai], rfl⟩

/-- C1 (amended): for every failure of the external call that raises an
exception — network failure, quota exhaustion, a raising provider error —
`analyze_with_ai` does not propagate the error and returns exactly the fixed
fallback value (mood "Neutral", score 0.5, the fixed tip), so `add-entry`
still succeeds with those values in `mood_label`, `sentiment_score` and
`supportive_tip`; a non-raising call whose response is unparseable is
instead passed through as `None`. -/
theorem ai_fallback_on_exception (t msg id : String) (ts : Nat) (s : Store)
    (extra : List (String × Value))
    (h1 : 1 ≤ t.length) (h2 : t.length ≤ 10000) :
    analyze_with_ai t (GenOutcome.raise msg) = ⟨some fallback, true⟩ ∧
    ∃ e, (addEntryRoute s (Body.withContent (ContentVal.str t))
            (GenOutcome.raise msg) (DBBehavior.assign id ts extra)).resp =
          Resp.entry e ∧
      e.mood_label = "Neutral" ∧ e.sentiment_score = 1 / 2 ∧
      e.supportive_tip = "I\x27m listening. Tell me more about your day." := by
  refine ⟨rfl, ⟨id, ts, t, fallback.mood, fallback.score, fallback.tip⟩, ?_, rfl, rfl, rfl⟩
  simp [addEntryRoute, validateRequest, h1, h2, analyze_with_ai, runInsert,
    exceptBlockResp, toResponse, mkRow]

/-- Witness for the amended C1 at a concrete input. -/
theorem ai_fallback_on_exception_witness :
    ∃ e, (addEntryRoute [] (Body.withContent (ContentVal.str ("hi")))
            (GenOutcome.raise ("down")) (DBBehavior.assign ("e1") 7 [])).resp =
          Resp.entry e ∧
      e.mood_label = "Neutral" ∧ e.sentiment_score = 1 / 2 ∧
      e.supportive_tip = "I\x27m listening. Tell me more about your day." :=
  (ai_fallback_on_exception ("hi") ("down") ("e1") 7 [] [] (by decide) (by decide)).2

/-- C3: a body whose content is absent, not a string, or of length 0 or
greater than 10000 fails validation, and `POST /add-entry` then returns the
422 client error having invoked neither the AI adapter nor the persistence
adapter (both counters zero, table unchanged); every string content with
length in [1, 10000] passes validation. -/
theorem add_entry_validation (c : String) (s : Store) (gen : GenOutcome)
    (db : DBBehavior) :
    validateRequest Body.missing = none ∧
    validateRequest (Body.withContent ContentVal.nonStr) = none ∧
    (c.length = 0 ∨ 10000 < c.length →
      validateRequest (Body.withContent (ContentVal.str c)) = none) ∧
    (1 ≤ c.length → c.length ≤ 10000 →
      validateRequest (Body.withContent (ContentVal.str c)) = some ⟨c⟩) ∧
    (∀ b : Body, validateRequest b = none →
      addEntryRoute s b gen db = ⟨s, Resp.validationError, 0, 0⟩) := by
  refine ⟨rfl, rfl, ?_, ?_, ?_⟩
  · intro h
    have : ¬ (1 ≤ c.length ∧ c.length ≤ 10000) := by omega
    simp [validateRequest, this]
  · intro h1 h2
    simp [validateRequest, h1, h2]
  · intro b hb
    simp [addEntryRoute, hb]

/-- Witness for C3 at concrete bodies. -/
theorem add_entry_validation_witness :
    validateRequest (Body.withContent (ContentVal.str (""))) = none ∧
    validateRequest (Body.withContent (ContentVal.str ("a"))) = some ⟨"a"⟩ ∧
    addEntryRoute [] Body.missing (GenOutcome.ok none) (DBBehavior.fail ("x")) =
      ⟨[], Resp.validationError, 0, 0⟩ :=
  ⟨(add_entry_validation ("") [] (GenOutcome.ok none) (DBBehavior.fail ("x"))).2.2.1
      (Or.inl (by decide)),
   (add_entry_validation ("a") [] (GenOutcome.ok none) (DBBehavior.fail ("x"))).2.2.2.1
      (by decide) (by decide),
   (add_entry_validation ("") [] (GenOutcome.ok none) (DBBehavior.fail ("x"))).2.2.2.2
      Body.missing rfl⟩

/-- C10: every exception raised inside the insert block — the type error
from indexing a `None` AI result, a raising insert call, and the
index error on an empty returned row list — is reported to the client as
the same generic 500 with detail "Failed to save entry to database.",
indistinguishable from a genuine persistence failure; in particular the
route reports exactly that response when `analyze_with_ai` returns `None`,
without invoking the insert. -/
theorem insert_block_uniform_500 (d : AIParsed) (msg t : String) (s : Store)
    (ins : Except String (List StoredRow)) (db : DBBehavior)
    (h1 : 1 ≤ t.length) (h2 : t.length ≤ 10000) :
    exceptBlockResp none ins = Resp.httpError 500 dbErrorDetail ∧
    exceptBlockResp (some d) (Except.error msg) = Resp.httpError 500 dbErrorDetail ∧
    exceptBlockResp (some d) (Except.ok []) = Resp.httpError 500 dbErrorDetail ∧
    addEntryRoute s (Body.withContent (ContentVal.str t)) (GenOutcome.ok none) db =
      ⟨s, Resp.httpError 500 dbErrorDetail, 1, 0⟩ := by
  refine ⟨rfl, rfl, rfl, ?_⟩
  simp [addEntryRoute, validateRequest, h1, h2, analyze_with_ai, exceptBlockResp]

/-- Witness for C10 at a concrete input. -/
theorem insert_block_uniform_500_witness :
    addEntryRoute [] (Body.withContent (ContentVal.str ("hi"))) (GenOutcome.ok none)
        (DBBehavior.assign ("e1") 1 []) =
      ⟨[], Resp.httpError 500 dbErrorDetail, 1, 0⟩ :=
  (insert_block_uniform_500 fallback ("m") ("hi") [] (Except.ok [])
      (DBBehavior.assign ("e1") 1 []) (by decide) (by decide)).2.2.2

/-- A stored row carrying an extra internal column, as the entries table may
hold beyond the six modelled columns. -/
def leakRow : StoredRow :=
  ⟨"e1", 5, "hello", "Happy", 9 / 10, "Keep it up!",
    [("internal_flag", Value.str "secret")]⟩

/-- C2 fails as stated for `GET /history`: the route returns the stored rows
with no response-model shaping, so a row with an extra internal column
reaches the client verbatim and its representation does not consist of
exactly the six response fields. -/
theorem response_shape_counterexample :
    getHistoryRoute [leakRow] none = Resp.rows [serializeStoredRow leakRow] ∧
    (serializeStoredRow leakRow).map Prod.fst ≠ responseFields := by
  constructor
  · have h : orderByCreatedAtDesc [leakRow] = [leakRow] :=
      List.perm_singleton.mp (List.mergeSort_perm [leakRow] createdAtGe)
    simp [getHistoryRoute, h]
  · decide

/-- C2 (amended): every entry returned by `POST /add-entry` is shaped by the
response model, so its representation carries exactly the six fields `id`,
`created_at`, `content`, `mood_label`, `sentiment_score`, `supportive_tip`;
`GET /history` returns rows exactly as stored, so its entries carry exactly
those six fields precisely when the stored row has no extra columns. -/
theorem response_shape_amended (s : Store) (b : Body) (gen : GenOutcome)
    (db : DBBehavior) (e : JournalEntryResponse)
    (rs : List (List (String × Value))) :
    ((addEntryRoute s b gen db).resp = Resp.entry e →
      (serializeEntry e).map Prod.fst = responseFields) ∧
    (getHistoryRoute s none = Resp.rows rs →
      rs = (orderByCreatedAtDesc s).map serializeStoredRow) ∧
    (∀ r : StoredRow, r.extra = [] →
      (serializeStoredRow r).map Prod.fst = responseFields) := by
  refine ⟨fun _ => rfl, ?_, ?_⟩
  · intro h
    injection h with h2
    exact h2.symm
  · intro r hr
    simp [serializeStoredRow, serializeEntry, toResponse, hr, responseFields]

/-- Witness for the amended C2 at a concrete request and store. -/
theorem response_shape_amended_witness :
    (serializeEntry (toResponse leakRow)).map Prod.fst = responseFields ∧
    (orderByCreatedAtDesc [leakRow]).map serializeStoredRow =
      (orderByCreatedAtDesc [leakRow]).map serializeStoredRow :=
  ⟨(response_shape_amended [] (Body.withContent (ContentVal.str ("hello")))
      (GenOutcome.ok (some happyParsed)) (DBBehavior.assign ("e1") 5 [])
      (toResponse leakRow) []).1 (by rfl),
   ((response_shape_amended [leakRow] Body.missing (GenOutcome.ok none)
      (DBBehavior.fail ("x")) (toResponse leakRow)
      ((orderByCreatedAtDesc [leakRow]).map serializeStoredRow)).2.1 rfl).symm⟩

/-- C4: if the insert call fails, `POST /add-entry` fails with the 500 whose
detail is exactly "Failed to save entry to database." — a fixed constant
independent of the internal exception text, which is therefore never leaked
— after exactly one (unretried) insert invocation and with the table
unchanged; the same fixed 500 results when the insert reports no inserted
row. -/
theorem persistence_error_surfaced (t msg : String) (s : Store)
    (gen : GenOutcome) (d : AIParsed)
    (h1 : 1 ≤ t.length) (h2 : t.length ≤ 10000)
    (hai : (analyze_with_ai t gen).value = some d) :
    addEntryRoute s (Body.withContent (ContentVal.str t)) gen (DBBehavior.fail msg) =
      ⟨s, Resp.httpError 500 dbErrorDetail, 1, 1⟩ ∧
    exceptBlockResp (some d) (Except.ok []) = Resp.httpError 500 dbErrorDetail := by
  refine ⟨?_, rfl⟩
  simp [addEntryRoute, validateRequest, h1, h2, hai, runInsert, exceptBlockResp]

/-- Witness for C4 at a concrete input (AI raising, so the fallback dict is
in use when the insert fails). -/
theorem persistence_error_surfaced_witness :
    addEntryRoute [] (Body.withContent (ContentVal.str ("hi")))
        (GenOutcome.raise ("boom")) (DBBehavior.fail ("db down")) =
      ⟨[], Resp.httpError 500 dbErrorDetail, 1, 1⟩ :=
  (persistence_error_surfaced ("hi") ("db down") [] (GenOutcome.raise ("boom"))
      fallback (by decide) (by decide) rfl).1

/-- C6: for every valid content and a successful insert, `POST /add-entry`
returns the entry whose `content` equals the submitted content verbatim,
with `id` and `created_at` the values assigned by the storage backend (and
the three analysis fields taken from the AI value in use). -/
theorem add_entry_content_verbatim (t id : String) (ts : Nat) (s : Store)
    (extra : List (String × Value)) (gen : GenOutcome) (d : AIParsed)
    (h1 : 1 ≤ t.length) (h2 : t.length ≤ 10000)
    (hai : (analyze_with_ai t gen).value = some d) :
    (addEntryRoute s (Body.withContent (ContentVal.str t)) gen
        (DBBehavior.assign id ts extra)).resp =
      Resp.entry ⟨id, ts, t, d.mood, d.score, d.tip⟩ := by
  simp [addEntryRoute, validateRequest, h1, h2, hai, runInsert, exceptBlockResp,
    toResponse, mkRow]

/-- Witness for C6 at a concrete input. -/
theorem add_entry_content_verbatim_witness :
    (addEntryRoute [] (Body.withContent (ContentVal.str ("Had a great day!")))
        (GenOutcome.ok (some happyParsed)) (DBBehavior.assign ("e1") 42 [])).resp =
      Resp.entry ⟨"e1", 42, "Had a great day!", "Happy", 9 / 10, "Keep it up!"⟩ :=
  add_entry_content_verbatim ("Had a great day!") ("e1") 42 [] []
    (GenOutcome.ok (some happyParsed)) happyParsed (by decide) (by decide) rfl

/-- C9: `POST /add-entry` admits no partial-success state: either the
response is a shaped entry and exactly one fully-populated row — content
verbatim, analysis fields from the AI value in use, real or fallback — was
appended to the entries table, or the response is not an entry and the
table is unchanged by the call. -/
theorem add_entry_atomic (s : Store) (b : Body) (gen : GenOutcome)
    (db : DBBehavior) :
    (∃ r : StoredRow, (addEntryRoute s b gen db).store = s ++ [r] ∧
        (addEntryRoute s b gen db).resp = Resp.entry (toResponse r) ∧
        ∃ req d, validateRequest b = some req ∧
          (analyze_with_ai req.content gen).value = some d ∧
          r.content = req.content ∧ r.mood_label = d.mood ∧
          r.sentiment_score = d.score ∧ r.supportive_tip = d.tip) ∨
    ((addEntryRoute s b gen db).store = s ∧
      ∀ e, (addEntryRoute s b gen db).resp ≠ Resp.entry e) := by
  cases hv : validateRequest b with
  | none =>
    right
    constructor
    · simp [addEntryRoute, hv]
    · intro e
      simp [addEntryRoute, hv]
  | some req =>
    cases hai : (analyze_with_ai req.content gen).value with
    | none =>
      right
      constructor
      · simp [addEntryRoute, hv, hai]
      · intro e
        simp [addEntryRoute, hv, hai, exceptBlockResp]
    | some d =>
      cases db with
      | fail msg =>
        right
        constructor
        · simp [addEntryRoute, hv, hai, runInsert]
        · intro e
          simp [addEntryRoute, hv, hai, runInsert, exceptBlockResp]
      | assign id ts extra =>
        left
        refine ⟨mkRow id ts extra ⟨req.content, d.mood, d.score, d.tip⟩, ?_, ?_,
          req, d, ?_, ?_, rfl, rfl, rfl, rfl⟩
        · simp [addEntryRoute, hv, hai, runInsert]
        · simp [addEntryRoute, hv, hai, runInsert, exceptBlockResp]
        · rfl
        · exact hai

/-- Transitivity of the descending `created_at` comparison. -/
lemma createdAtGe_trans (a b c : StoredRow) (hab : createdAtGe a b = true)
    (hbc : createdAtGe b c = true) : createdAtGe a c = true := by
  simp only [createdAtGe, decide_eq_true_eq] at hab hbc ⊢
  omega

/-- Totality of the descending `created_at` comparison. -/
lemma createdAtGe_total (a b : StoredRow) :
    (createdAtGe a b || createdAtGe b a) = true := by
  simp only [createdAtGe, Bool.or_eq_true, decide_eq_true_eq]
  omega

/-- The history listing is sorted: successive rows have non-increasing
`created_at`. -/
lemma orderByCreatedAtDesc_pairwise (s : Store) :
    List.Pairwise (fun x y => y.created_at ≤ x.created_at)
      (orderByCreatedAtDesc s) := by
  have h := @List.sorted_mergeSort StoredRow createdAtGe createdAtGe_trans
    createdAtGe_total s
  exact h.imp (fun hxy => by simpa [createdAtGe] using hxy)

/-- The history listing is a permutation of the table. -/
lemma orderByCreatedAtDesc_perm (s : Store) :
    (orderByCreatedAtDesc s).Perm s :=
  List.mergeSort_perm s createdAtGe

/-- In a pairwise-ordered list, an element that the order does not place
after `b` occurs after some occurrence of `b`. -/
lemma pair_sublist_of_pairwise {α : Type} {le : α → α → Prop} (a b : α)
    (hnab : ¬ le a b) (hne : a ≠ b) :
    ∀ l : List α, l.Pairwise le → a ∈ l → b ∈ l → List.Sublist [b, a] l := by
  intro l
  induction l with
  | nil =>
    intro _ ha _
    cases ha
  | cons x xs ih =>
    intro hp ha hb
    rcases List.pairwise_cons.mp hp with ⟨hx, hxs⟩
    by_cases hxb : x = b
    · subst hxb
      have ha2 : a ∈ xs := by
        rcases List.mem_cons.mp ha with h | h
        · exact absurd h hne
        · exact h
      exact List.Sublist.cons₂ x (List.singleton_sublist.mpr ha2)
    · have hb2 : b ∈ xs := by
        rcases List.mem_cons.mp hb with h | h
        · exact absurd h.symm hxb
        · exact h
      have hxa : x ≠ a := by
        intro heq
        exact hnab (heq ▸ hx b hb2)
      have ha2 : a ∈ xs := by
        rcases List.mem_cons.mp ha with h | h
        · exact absurd h.symm hxa
        · exact h
      exact List.Sublist.cons x (ih hxs ha2 hb2)

/-- C5: `GET /history` returns all rows of the entries store ordered by
`created_at` descending — the listing serializes a permutation of the table
whose successive rows have non-increasing `created_at`, so an entry `b` with
a later `created_at` than an entry `a` is placed before `a` — and on a
raised fetch error it returns the 500 whose detail is exactly
"Failed to fetch history.". -/
theorem get_history_ordered (s : Store) (a b : StoredRow) (msg : String)
    (ha : a ∈ s) (hb : b ∈ s) (hab : a.created_at < b.created_at) :
    getHistoryRoute s none =
      Resp.rows ((orderByCreatedAtDesc s).map serializeStoredRow) ∧
    (orderByCreatedAtDesc s).Perm s ∧
    List.Pairwise (fun x y => y.created_at ≤ x.created_at)
      (orderByCreatedAtDesc s) ∧
    List.Sublist [serializeStoredRow b, serializeStoredRow a]
      ((orderByCreatedAtDesc s).map serializeStoredRow) ∧
    getHistoryRoute s (some msg) = Resp.httpError 500 fetchErrorDetail := by
  refine ⟨rfl, orderByCreatedAtDesc_perm s, orderByCreatedAtDesc_pairwise s, ?_, rfl⟩
  have hnab : ¬ (fun x y : StoredRow => y.created_at ≤ x.created_at) a b := by
    simp only []
    omega
  have hne : a ≠ b := by
    intro h
    rw [h] at hab
    omega
  have hsub := pair_sublist_of_pairwise a b hnab hne (orderByCreatedAtDesc s)
    (orderByCreatedAtDesc_pairwise s)
    ((orderByCreatedAtDesc_perm s).mem_iff.mpr ha)
    ((orderByCreatedAtDesc_perm s).mem_iff.mpr hb)
  simpa using hsub.map serializeStoredRow

/-- A sample older row of the entries table. -/
def rowA : StoredRow := ⟨"a1", 1, "first", "Calm", 1 / 2, "tip a", []⟩

/-- A sample newer row of the entries table. -/
def rowB : StoredRow := ⟨"b2", 2, "second", "Happy", 9 / 10, "tip b", []⟩

/-- Witness for C5 at a concrete two-row table. -/
theorem get_history_ordered_witness :
    List.Sublist [serializeStoredRow rowB, serializeStoredRow rowA]
      ((orderByCreatedAtDesc [rowA, rowB]).map serializeStoredRow) :=
  (get_history_ordered [rowA, rowB] rowA rowB ("down")
    (List.mem_cons_self rowA [rowB])
    (List.mem_cons_of_mem rowA (List.mem_cons_self rowB []))
    (by decide)).2.2.2.1

end VibeOn
